import Mathlib

/-!
Verification of the Doris pipeline execution engine core
(`be/src/pipeline/pipeline_task.h`,
`be/src/pipeline/exec/multi_cast_data_stream_source.h`) against its
natural-language specification.

The header's inline member functions are embedded directly.  Member
functions whose bodies live in translation units that are not part of
this excerpt (`PipelineTask::execute`, `PipelineTask::try_close`,
`PipelineTask::set_state`, the `BlockedTaskScheduler` sweep) are
modelled from the specification's state-machine table; each such
definition carries a doc comment saying so.
-/

namespace doris.pipeline

/-- Embeds `doris::Status`: either OK or an error carrying a message.
Only the OK/non-OK distinction matters for the properties below. -/
inductive Status where
  | OK : Status
  | InternalError : String → Status
  deriving DecidableEq, Repr

/-- Embeds `doris::pipeline::SourceState` (three-valued end-of-stream tag). -/
inductive SourceState where
  | DEPEND_ON_SOURCE : SourceState
  | MORE_DATA : SourceState
  | FINISHED : SourceState
  deriving DecidableEq, Repr

/-- Embeds `enum class PipelineTaskState : uint8_t` of `pipeline_task.h`. -/
inductive PipelineTaskState where
  | NOT_READY : PipelineTaskState
  | BLOCKED_FOR_DEPENDENCY : PipelineTaskState
  | BLOCKED_FOR_SOURCE : PipelineTaskState
  | BLOCKED_FOR_SINK : PipelineTaskState
  | RUNNABLE : PipelineTaskState
  | PENDING_FINISH : PipelineTaskState
  | FINISHED : PipelineTaskState
  | CANCELED : PipelineTaskState
  | BLOCKED_FOR_RF : PipelineTaskState
  deriving DecidableEq, Repr

/-- The numeric value each enumerator carries in the C++ enum. -/
def PipelineTaskState.toNat : PipelineTaskState → Nat
  | .NOT_READY => 0
  | .BLOCKED_FOR_DEPENDENCY => 1
  | .BLOCKED_FOR_SOURCE => 2
  | .BLOCKED_FOR_SINK => 3
  | .RUNNABLE => 4
  | .PENDING_FINISH => 5
  | .FINISHED => 6
  | .CANCELED => 7
  | .BLOCKED_FOR_RF => 8

/-- `FINISHED` and `CANCELED` are the terminal states of the FSM. -/
def PipelineTaskState.isTerminal : PipelineTaskState → Bool
  | .FINISHED => true
  | .CANCELED => true
  | _ => false

/-- An operator as seen through the abstract operator contract
(`exec/operator.h` is outside this excerpt): the non-blocking
observation predicates are modelled as fields, since the operator
implementations are out of scope.  `teardown_initiated` records that
`try_close` has been called; per the operator contract (spec 4.1)
`try_close` is idempotent and returns a status independent of how
often it is invoked, modelled by the fixed field `try_close_status`. -/
structure OperatorBase where
  is_pending_finish : Bool
  can_read : Bool
  can_write : Bool
  runtime_filters_are_ready_or_timeout : Bool
  teardown_initiated : Bool
  try_close_status : Status
  deriving DecidableEq, Repr

instance : Inhabited OperatorBase :=
  ⟨{ is_pending_finish := false, can_read := false, can_write := false,
     runtime_filters_are_ready_or_timeout := false,
     teardown_initiated := false, try_close_status := Status.OK }⟩

/-- Embeds `Operators` (`std::vector<OperatorPtr>`; front is the source,
back is the root). -/
def Operators : Type := List OperatorBase

/-- Embeds `doris::MonotonicStopWatch` (`util/stopwatch.hpp`, outside this
excerpt): only whether the watch is currently running is modelled. -/
structure MonotonicStopWatch where
  running : Bool
  deriving DecidableEq, Repr

def MonotonicStopWatch.start (w : MonotonicStopWatch) : MonotonicStopWatch :=
  { w with running := true }

def MonotonicStopWatch.stop (w : MonotonicStopWatch) : MonotonicStopWatch :=
  { w with running := false }

/-- The fields of `doris::pipeline::Pipeline` that `pipeline_task.h` reads:
`_can_steal` and `_previous_schedule_id` (the pipeline's last-known core
hint). -/
structure Pipeline where
  can_steal : Bool
  previous_schedule_id : Int
  deriving DecidableEq, Repr

/-- `2^32`: the modulus of `uint32_t` arithmetic (`_schedule_time`). -/
def UINT32_MOD : Nat := 4294967296

/-- `2^64`: the modulus of `uint64_t` arithmetic (`_runtime`). -/
def UINT64_MOD : Nat := 18446744073709551616

/-- Embeds the members of `doris::pipeline::PipelineTask` used by the inline
member functions of `pipeline_task.h`.  `_source` is `_operators.front()`
and aliases the first chain element, so it is derived (`PipelineTask.source`)
rather than stored; `_sink` is a separate member.  Unsigned members keep
their C++ width via explicit moduli; profile counters and stop watches are
modelled by a count and a running flag. -/
structure PipelineTask where
  index : Nat
  pipeline : Pipeline
  dependency_finish : Bool
  operators : List OperatorBase
  sink : OperatorBase
  prepared : Bool
  opened : Bool
  can_steal : Bool
  previous_schedule_id : Int
  schedule_time : Nat
  cur_state : PipelineTaskState
  data_state : SourceState
  runtime : Nat
  queue_level : Int
  core_id : Int
  core_change_times : Nat
  wait_worker_watcher : MonotonicStopWatch
  wait_schedule_watcher : MonotonicStopWatch
  deriving DecidableEq, Repr

/-- Embeds the `PipelineTask` constructor: `_prepared(false)`, `_opened(false)`,
`_can_steal(pipeline->_can_steal)`, `_cur_state(PipelineTaskState::NOT_READY)`,
`_data_state(SourceState::DEPEND_ON_SOURCE)`, with the in-class initializers
`_dependency_finish = false`, `_previous_schedule_id = -1`,
`_schedule_time = 0`, `_runtime = 0`, `_queue_level = 0`, `_core_id = 0`.
The `RuntimeState*`, fragment-context and profile pointers are not modelled. -/
def PipelineTask.mk_task (pipeline : Pipeline) (index : Nat)
    (operators : List OperatorBase) (sink : OperatorBase) : PipelineTask :=
  { index := index
    pipeline := pipeline
    dependency_finish := false
    operators := operators
    sink := sink
    prepared := false
    opened := false
    can_steal := pipeline.can_steal
    previous_schedule_id := -1
    schedule_time := 0
    cur_state := PipelineTaskState.NOT_READY
    data_state := SourceState.DEPEND_ON_SOURCE
    runtime := 0
    queue_level := 0
    core_id := 0
    core_change_times := 0
    wait_worker_watcher := { running := false }
    wait_schedule_watcher := { running := false } }

/-- `_source = _operators.front()`. -/
def PipelineTask.source (t : PipelineTask) : OperatorBase := t.operators.headI

/-- `_root = _operators.back()`. -/
def PipelineTask.root (t : PipelineTask) : OperatorBase := t.operators.getLastI

/-- `bool is_pending_finish() { return _source->is_pending_finish() ||
_sink->is_pending_finish(); }`. -/
def PipelineTask.is_pending_finish (t : PipelineTask) : Bool :=
  t.source.is_pending_finish || t.sink.is_pending_finish

/-- `bool source_can_read() { return _source->can_read(); }`. -/
def PipelineTask.source_can_read (t : PipelineTask) : Bool := t.source.can_read

/-- `bool sink_can_write() { return _sink->can_write(); }`. -/
def PipelineTask.sink_can_write (t : PipelineTask) : Bool := t.sink.can_write

/-- `void put_in_runnable_queue() { _schedule_time++;
_wait_worker_watcher.start(); }` — `_schedule_time` is `uint32_t`, so the
increment wraps at `2^32`. -/
def PipelineTask.put_in_runnable_queue (t : PipelineTask) : PipelineTask :=
  { t with schedule_time := (t.schedule_time + 1) % UINT32_MOD
           wait_worker_watcher := t.wait_worker_watcher.start }

/-- `void pop_out_runnable_queue() { _wait_worker_watcher.stop(); }`. -/
def PipelineTask.pop_out_runnable_queue (t : PipelineTask) : PipelineTask :=
  { t with wait_worker_watcher := t.wait_worker_watcher.stop }

/-- `PipelineTaskState get_state() { return _cur_state; }`. -/
def PipelineTask.get_state (t : PipelineTask) : PipelineTaskState := t.cur_state

/-- `int get_previous_core_id() const { return _previous_schedule_id != -1 ?
_previous_schedule_id : _pipeline->_previous_schedule_id; }`. -/
def PipelineTask.get_previous_core_id (t : PipelineTask) : Int :=
  if t.previous_schedule_id ≠ -1 then t.previous_schedule_id
  else t.pipeline.previous_schedule_id

/-- `void set_previous_core_id(int id)`: returns early when `id` equals the
recorded id; bumps the core-change counter only when a real core had been
recorded before (`_previous_schedule_id != -1`); then records `id`. -/
def PipelineTask.set_previous_core_id (t : PipelineTask) (id : Int) : PipelineTask :=
  if id = t.previous_schedule_id then t
  else
    let t1 := if t.previous_schedule_id ≠ -1
              then { t with core_change_times := t.core_change_times + 1 }
              else t
    { t1 with previous_schedule_id := id }

/-- `static constexpr auto THREAD_TIME_SLICE = 100'000'000L;` (nanoseconds). -/
def THREAD_TIME_SLICE : Int := 100000000

/-- Modelled from the spec: the default of the `pipeline_time_slice_ns`
tunable (spec section 6, "default 1e8 = 100 ms"); the configuration
loader is not part of this excerpt. -/
def pipeline_time_slice_ns_default : Int := 100000000

/-- Nanoseconds in one millisecond. -/
def NANOSECONDS_PER_MILLISECOND : Int := 1000000

/-- `void inc_runtime_ns(uint64_t delta_time) { this->_runtime += delta_time; }`
— `uint64_t` addition, hence modulo `2^64`. -/
def PipelineTask.inc_runtime_ns (t : PipelineTask) (delta_time : Nat) : PipelineTask :=
  { t with runtime := (t.runtime + delta_time) % UINT64_MOD }

/-- `uint64_t get_runtime_ns() const { return this->_runtime; }`. -/
def PipelineTask.get_runtime_ns (t : PipelineTask) : Nat := t.runtime

/-- `void update_queue_level(int queue_level)`. -/
def PipelineTask.update_queue_level (t : PipelineTask) (queue_level : Int) : PipelineTask :=
  { t with queue_level := queue_level }

/-- `int get_queue_level() const`. -/
def PipelineTask.get_queue_level (t : PipelineTask) : Int := t.queue_level

/-- `void set_core_id(int core_id)`. -/
def PipelineTask.set_core_id (t : PipelineTask) (core_id : Int) : PipelineTask :=
  { t with core_id := core_id }

/-- `int get_core_id() const`. -/
def PipelineTask.get_core_id (t : PipelineTask) : Int := t.core_id

/-- Modelled from the spec: the complete transition table of the pipeline
task FSM (spec section 4.3 and the FSM comment atop `pipeline_task.h`);
`PipelineTask::set_state` and `PipelineTask::execute` are implemented in a
translation unit outside this excerpt.  `specTransition s s'` holds exactly
when the table contains a row `s -> s'`. -/
def specTransition : PipelineTaskState → PipelineTaskState → Bool
  | .NOT_READY, .BLOCKED_FOR_DEPENDENCY => true
  | .NOT_READY, .RUNNABLE => true
  | .BLOCKED_FOR_DEPENDENCY, .RUNNABLE => true
  | .RUNNABLE, .BLOCKED_FOR_RF => true
  | .BLOCKED_FOR_RF, .RUNNABLE => true
  | .RUNNABLE, .BLOCKED_FOR_SOURCE => true
  | .BLOCKED_FOR_SOURCE, .RUNNABLE => true
  | .RUNNABLE, .BLOCKED_FOR_SINK => true
  | .BLOCKED_FOR_SINK, .RUNNABLE => true
  | .RUNNABLE, .RUNNABLE => true
  | .RUNNABLE, .PENDING_FINISH => true
  | .RUNNABLE, .FINISHED => true
  | .PENDING_FINISH, .FINISHED => true
  | .RUNNABLE, .CANCELED => true
  | .PENDING_FINISH, .CANCELED => true
  | .BLOCKED_FOR_DEPENDENCY, .CANCELED => true
  | .BLOCKED_FOR_SOURCE, .CANCELED => true
  | .BLOCKED_FOR_SINK, .CANCELED => true
  | .BLOCKED_FOR_RF, .CANCELED => true
  | _, _ => false

/-- Modelled from the spec: the state reached when the holder of a task
(worker or blocked-task scheduler) observes fragment-context cancellation
(spec sections 4.3 and 5: "RUNNABLE / PENDING_FINISH / any BLOCKED ->
CANCELED"); the observing code (`PipelineTask::execute` and the
`BlockedTaskScheduler` sweep) is outside this excerpt. -/
def observe_cancellation : PipelineTaskState → PipelineTaskState
  | .RUNNABLE => .CANCELED
  | .PENDING_FINISH => .CANCELED
  | .BLOCKED_FOR_DEPENDENCY => .CANCELED
  | .BLOCKED_FOR_SOURCE => .CANCELED
  | .BLOCKED_FOR_SINK => .CANCELED
  | .BLOCKED_FOR_RF => .CANCELED
  | s => s

/-- Modelled from the spec: the blocked-task scheduler moves a task from
PENDING_FINISH to FINISHED exactly when `!is_pending_finish()` (spec
sections 4.3 and 4.5); the sweep itself is outside this excerpt.  Returns
the fired transition's target, if any. -/
def pending_finish_transition (t : PipelineTask) : Option PipelineTaskState :=
  if t.cur_state = PipelineTaskState.PENDING_FINISH ∧ t.is_pending_finish = false
  then some PipelineTaskState.FINISHED
  else none

/-- Modelled from the spec: an operator's `try_close()` "initiates teardown,
may leave the operator in pending-finish" and is idempotent (spec section
4.1); operator implementations are out of scope, so initiating teardown is
recorded in the `teardown_initiated` flag and the returned status is the
operator's fixed `try_close_status`. -/
def OperatorBase.do_try_close (op : OperatorBase) : Status × OperatorBase :=
  (op.try_close_status, { op with teardown_initiated := true })

/-- The first non-OK status of a list, or OK (the usual status-combining
fold of a loop of `RETURN_IF_ERROR`-style calls). -/
def firstError (l : List Status) : Status :=
  l.foldl (fun acc s => match acc with | Status.OK => s | e => e) Status.OK

/-- Modelled from the spec: `PipelineTask::try_close` "initiates teardown on
every operator in chain order and is safe to call from any state" (spec
section 4.3), and per the comment in `pipeline_task.h`, "if there are still
some resources need to be released after `try_close`, this task will enter
the `PENDING_FINISH` state"; the body is in a translation unit outside this
excerpt.  The chain operators and the sink are torn down in order, the
first error status wins, and the task enters PENDING_FINISH when a source
or sink release is still outstanding.  `teardown_all` is the state part
(every operator's `try_close` called in chain order, then the sink's). -/
def PipelineTask.teardown_all (t : PipelineTask) : PipelineTask :=
  { t with operators := t.operators.map fun op => (OperatorBase.do_try_close op).2
           sink := (OperatorBase.do_try_close t.sink).2 }

/-- The status `PipelineTask.try_close` returns: the first non-OK status of
the chain operators' and the sink's `try_close` calls. -/
def PipelineTask.try_close_status_of (t : PipelineTask) : Status :=
  firstError ((t.operators.map fun op => (OperatorBase.do_try_close op).1)
               ++ [(OperatorBase.do_try_close t.sink).1])

def PipelineTask.try_close (t : PipelineTask) : Status × PipelineTask :=
  (t.try_close_status_of,
   if t.teardown_all.is_pending_finish
   then { t.teardown_all with cur_state := PipelineTaskState.PENDING_FINISH }
   else t.teardown_all)

/-- Embeds `doris::RuntimeState` as an opaque handle (its contents are
outside this excerpt and unused by the embedded functions). -/
structure RuntimeState where
  deriving DecidableEq, Repr

/-- Embeds `doris::vectorized::Block` as the spec's opaque columnar batch:
only a row count is modelled. -/
structure Block where
  rows : Nat
  deriving DecidableEq, Repr

/-- Embeds `doris::pipeline::MultiCastDataStreamerSourceOperator`
(`multi_cast_data_stream_source.h`): the consumer id it was built with.
The shared streamer is irrelevant to the inline members embedded below. -/
structure MultiCastDataStreamerSourceOperator where
  consumer_id : Int
  deriving DecidableEq, Repr

/-- `Status prepare(RuntimeState* state) override { return Status::OK(); }`. -/
def MultiCastDataStreamerSourceOperator.prepare
    (_op : MultiCastDataStreamerSourceOperator) (_state : RuntimeState) : Status :=
  Status.OK

/-- `Status open(RuntimeState* state) override { return Status::OK(); }`
(named `open_operator` because `open` is reserved in Lean). -/
def MultiCastDataStreamerSourceOperator.open_operator
    (_op : MultiCastDataStreamerSourceOperator) (_state : RuntimeState) : Status :=
  Status.OK

/-- `Status sink(RuntimeState*, vectorized::Block*, SourceState) override {
return Status::OK(); }`. -/
def MultiCastDataStreamerSourceOperator.sink
    (_op : MultiCastDataStreamerSourceOperator) (_state : RuntimeState)
    (_block : Block) (_source_state : SourceState) : Status :=
  Status.OK

/-- A concrete operator used by witnesses: nothing pending, everything ready. -/
def opReady : OperatorBase :=
  { is_pending_finish := false, can_read := true, can_write := true,
    runtime_filters_are_ready_or_timeout := true,
    teardown_initiated := false, try_close_status := Status.OK }

/-- A concrete pipeline used by witnesses: last-known core hint 3. -/
def samplePipeline : Pipeline := { can_steal := true, previous_schedule_id := 3 }

/-- A freshly constructed concrete task used by witnesses. -/
def sampleTask : PipelineTask :=
  PipelineTask.mk_task samplePipeline 0 [opReady] opReady

/-- `sampleTask` after one scheduling decision recorded core id 5. -/
def scheduledTask : PipelineTask := { sampleTask with previous_schedule_id := 5 }

/-- `sampleTask` with the `uint32_t` schedule counter at its maximum. -/
def wrapTask : PipelineTask := { sampleTask with schedule_time := 4294967295 }

/-- `sampleTask` with the `uint64_t` runtime counter at its maximum. -/
def maxRuntimeTask : PipelineTask :=
  { sampleTask with runtime := 18446744073709551615 }

/-- `sampleTask` parked in PENDING_FINISH with no release outstanding. -/
def pendingFinishTask : PipelineTask :=
  { sampleTask with cur_state := PipelineTaskState.PENDING_FINISH }

/- Helper lemmas about operator teardown, shared by several theorems. -/

theorem map_do_try_close_idem (l : List OperatorBase) :
    (l.map fun op => (OperatorBase.do_try_close op).2).map
      (fun op => (OperatorBase.do_try_close op).2) =
    l.map fun op => (OperatorBase.do_try_close op).2 := by
  induction l with
  | nil => rfl
  | cons a l ih => simp only [List.map_cons, ih]; rfl

theorem map_do_try_close_status (l : List OperatorBase) :
    (l.map fun op => (OperatorBase.do_try_close op).2).map
      (fun op => (OperatorBase.do_try_close op).1) =
    l.map fun op => (OperatorBase.do_try_close op).1 := by
  induction l with
  | nil => rfl
  | cons a l ih => simp only [List.map_cons, ih]; rfl

theorem headI_map_do_try_close_pending (l : List OperatorBase) :
    ((l.map fun op => (OperatorBase.do_try_close op).2).headI).is_pending_finish =
      l.headI.is_pending_finish := by
  cases l <;> rfl

theorem teardown_all_pending (t : PipelineTask) :
    t.teardown_all.is_pending_finish = t.is_pending_finish := by
  simp only [PipelineTask.teardown_all, PipelineTask.is_pending_finish,
    PipelineTask.source, headI_map_do_try_close_pending]
  rfl

theorem teardown_all_idem (t : PipelineTask) :
    t.teardown_all.teardown_all = t.teardown_all := by
  simp only [PipelineTask.teardown_all, map_do_try_close_idem]
  rfl

theorem teardown_all_status (t : PipelineTask) :
    t.teardown_all.try_close_status_of = t.try_close_status_of := by
  simp only [PipelineTask.teardown_all, PipelineTask.try_close_status_of,
    map_do_try_close_status]
  rfl

theorem teardown_all_set_cur_state (t : PipelineTask) (c : PipelineTaskState) :
    ({ t with cur_state := c } : PipelineTask).teardown_all =
      { t.teardown_all with cur_state := c } := rfl

theorem pending_set_cur_state (t : PipelineTask) (c : PipelineTaskState) :
    ({ t with cur_state := c } : PipelineTask).is_pending_finish =
      t.is_pending_finish := rfl

theorem status_set_cur_state (t : PipelineTask) (c : PipelineTaskState) :
    ({ t with cur_state := c } : PipelineTask).try_close_status_of =
      t.try_close_status_of := rfl

theorem set_cur_state_set_cur_state (t : PipelineTask) (a b : PipelineTaskState) :
    ({ ({ t with cur_state := a } : PipelineTask) with cur_state := b } : PipelineTask) =
      { t with cur_state := b } := rfl

/-- C1: a task in RUNNABLE, PENDING_FINISH or any blocked state
(BLOCKED_FOR_DEPENDENCY, BLOCKED_FOR_SOURCE, BLOCKED_FOR_SINK,
BLOCKED_FOR_RF) moves to CANCELED when its holder observes
fragment-context cancellation; the move is a transition of the FSM table
and its target is terminal, so no such task remains in a non-terminal
state after cancellation is observed. -/
theorem cancellation_observed_reaches_canceled (s : PipelineTaskState)
    (h : s = PipelineTaskState.RUNNABLE ∨ s = PipelineTaskState.PENDING_FINISH ∨
         s = PipelineTaskState.BLOCKED_FOR_DEPENDENCY ∨
         s = PipelineTaskState.BLOCKED_FOR_SOURCE ∨
         s = PipelineTaskState.BLOCKED_FOR_SINK ∨
         s = PipelineTaskState.BLOCKED_FOR_RF) :
    observe_cancellation s = PipelineTaskState.CANCELED ∧
    specTransition s PipelineTaskState.CANCELED = true ∧
    (observe_cancellation s).isTerminal = true := by
  rcases h with h | h | h | h | h | h <;> subst h <;> exact ⟨rfl, rfl, rfl⟩

/-- Witness for C1 at the concrete state RUNNABLE. -/
theorem cancellation_observed_reaches_canceled_witness :
    observe_cancellation PipelineTaskState.RUNNABLE = PipelineTaskState.CANCELED ∧
    specTransition PipelineTaskState.RUNNABLE PipelineTaskState.CANCELED = true ∧
    (observe_cancellation PipelineTaskState.RUNNABLE).isTerminal = true :=
  cancellation_observed_reaches_canceled PipelineTaskState.RUNNABLE (Or.inl rfl)

/-- C2: `is_pending_finish()` is true exactly when the source operator or
the sink operator is pending finish, and for a task in PENDING_FINISH the
transition to FINISHED fires exactly when neither is. -/
theorem is_pending_finish_iff_source_or_sink (t : PipelineTask) :
    (t.is_pending_finish = true ↔
      t.source.is_pending_finish = true ∨ t.sink.is_pending_finish = true) ∧
    (t.cur_state = PipelineTaskState.PENDING_FINISH →
      (pending_finish_transition t = some PipelineTaskState.FINISHED ↔
        t.source.is_pending_finish = false ∧ t.sink.is_pending_finish = false)) := by
  constructor
  · simp [PipelineTask.is_pending_finish]
  · intro h
    cases hs : t.source.is_pending_finish <;> cases hk : t.sink.is_pending_finish <;>
      simp [pending_finish_transition, h, PipelineTask.is_pending_finish, hs, hk]

/-- Witness for C2 at a concrete task parked in PENDING_FINISH. -/
theorem is_pending_finish_iff_source_or_sink_witness :
    (pendingFinishTask.is_pending_finish = true ↔
      pendingFinishTask.source.is_pending_finish = true ∨
      pendingFinishTask.sink.is_pending_finish = true) ∧
    (pending_finish_transition pendingFinishTask = some PipelineTaskState.FINISHED ↔
      pendingFinishTask.source.is_pending_finish = false ∧
      pendingFinishTask.sink.is_pending_finish = false) :=
  ⟨(is_pending_finish_iff_source_or_sink pendingFinishTask).1,
   (is_pending_finish_iff_source_or_sink pendingFinishTask).2 rfl⟩

/-- C3: `THREAD_TIME_SLICE` is 100 milliseconds of wall time, i.e. exactly
100000000 nanoseconds, and equals the default of `pipeline_time_slice_ns`. -/
theorem thread_time_slice_is_100ms :
    THREAD_TIME_SLICE = 100 * NANOSECONDS_PER_MILLISECOND ∧
    THREAD_TIME_SLICE = pipeline_time_slice_ns_default ∧
    THREAD_TIME_SLICE = 100000000 := by
  refine ⟨?_, rfl, rfl⟩ ; rfl

/-- C4 counterexample: on a freshly constructed task the recorded core id is
-1; assigning core 0 differs from the recorded id, yet the core-change
counter is not incremented, refuting the claim as stated. -/
theorem set_previous_core_id_counter_not_bumped_from_fresh :
    (0 : Int) ≠ sampleTask.previous_schedule_id ∧
    (sampleTask.set_previous_core_id 0).core_change_times =
      sampleTask.core_change_times := by
  exact ⟨by decide, rfl⟩

/-- C4 (amended): `set_previous_core_id(id)` increments the core-change
counter exactly when `id` differs from the recorded core id and a real core
(not the initial -1) had been recorded; in every case a differing `id` is
recorded, and an equal `id` leaves the task unchanged. -/
theorem set_previous_core_id_counter_spec (t : PipelineTask) (id : Int) :
    (id ≠ t.previous_schedule_id → t.previous_schedule_id ≠ -1 →
      (t.set_previous_core_id id).core_change_times = t.core_change_times + 1 ∧
      (t.set_previous_core_id id).previous_schedule_id = id) ∧
    (id ≠ t.previous_schedule_id → t.previous_schedule_id = -1 →
      (t.set_previous_core_id id).core_change_times = t.core_change_times ∧
      (t.set_previous_core_id id).previous_schedule_id = id) ∧
    (id = t.previous_schedule_id → t.set_previous_core_id id = t) := by
  refine ⟨?_, ?_, ?_⟩
  · intro hne hprev
    simp [PipelineTask.set_previous_core_id, hne, hprev]
  · intro hne hprev
    rw [hprev] at hne
    simp [PipelineTask.set_previous_core_id, hne, hprev]
  · intro heq
    simp [PipelineTask.set_previous_core_id, heq]

/-- Witness for C4 (amended) at a task that has recorded core 5 and is
assigned core 7. -/
theorem set_previous_core_id_counter_spec_witness :
    (scheduledTask.set_previous_core_id 7).core_change_times =
      scheduledTask.core_change_times + 1 ∧
    (scheduledTask.set_previous_core_id 7).previous_schedule_id = 7 :=
  (set_previous_core_id_counter_spec scheduledTask 7).1 (by decide) (by decide)

/-- C5: a newly constructed task is in NOT_READY, and the FSM table has no
transition out of FINISHED or CANCELED. -/
theorem new_task_not_ready_and_terminals_absorb
    (pipeline : Pipeline) (index : Nat) (operators : List OperatorBase)
    (sink : OperatorBase) (s : PipelineTaskState) :
    (PipelineTask.mk_task pipeline index operators sink).get_state =
      PipelineTaskState.NOT_READY ∧
    specTransition PipelineTaskState.FINISHED s = false ∧
    specTransition PipelineTaskState.CANCELED s = false := by
  refine ⟨rfl, ?_, ?_⟩ <;> cases s <;> rfl

/-- C6: `try_close` is idempotent — a second call returns the same status
and leaves the task (operator states and `_cur_state` included) exactly as
the first call left it. -/
theorem try_close_idempotent (t : PipelineTask) :
    ((t.try_close).2).try_close = t.try_close := by
  by_cases h : t.teardown_all.is_pending_finish = true
  · have h' : t.is_pending_finish = true := (teardown_all_pending t) ▸ h
    unfold PipelineTask.try_close
    simp [h, h', teardown_all_set_cur_state, teardown_all_idem,
      pending_set_cur_state, status_set_cur_state, teardown_all_status,
      teardown_all_pending, set_cur_state_set_cur_state]
  · have hf : t.teardown_all.is_pending_finish = false := by
      cases hx : t.teardown_all.is_pending_finish
      · rfl
      · exact absurd hx h
    have hf' : t.is_pending_finish = false := (teardown_all_pending t) ▸ hf
    unfold PipelineTask.try_close
    simp [hf, hf', teardown_all_idem, teardown_all_status, teardown_all_pending]

/-- C7 counterexample: with the `uint32_t` schedule counter at 4294967295,
`put_in_runnable_queue` wraps it to 0 instead of incrementing it by one,
refuting the claim as stated. -/
theorem put_in_runnable_queue_wraps_at_uint32_max :
    (wrapTask.put_in_runnable_queue).schedule_time = 0 ∧
    (wrapTask.put_in_runnable_queue).schedule_time ≠ wrapTask.schedule_time + 1 := by
  constructor
  · rfl
  · decide

/-- C7 (amended): each `put_in_runnable_queue` advances the schedule count
by one modulo 2^32 (by exactly one whenever the count stays below 2^32) and
starts the wait-for-worker timer; `pop_out_runnable_queue` stops that
timer. -/
theorem put_in_runnable_queue_spec (t : PipelineTask) :
    (t.put_in_runnable_queue).schedule_time = (t.schedule_time + 1) % UINT32_MOD ∧
    (t.schedule_time + 1 < UINT32_MOD →
      (t.put_in_runnable_queue).schedule_time = t.schedule_time + 1) ∧
    (t.put_in_runnable_queue).wait_worker_watcher.running = true ∧
    (t.pop_out_runnable_queue).wait_worker_watcher.running = false := by
  refine ⟨rfl, ?_, rfl, rfl⟩
  intro h
  simp [PipelineTask.put_in_runnable_queue, Nat.mod_eq_of_lt h]

/-- Witness for C7 (amended) at the fresh sample task. -/
theorem put_in_runnable_queue_spec_witness :
    (sampleTask.put_in_runnable_queue).schedule_time = sampleTask.schedule_time + 1 :=
  (put_in_runnable_queue_spec sampleTask).2.1 (by decide)

/-- C8 counterexample: with the `uint64_t` runtime counter at its maximum,
`inc_runtime_ns(1)` wraps `_runtime` to 0 — the new value is not the old
value plus the delta and is smaller than before, refuting the claim as
stated. -/
theorem inc_runtime_ns_wraps_at_uint64_max :
    (maxRuntimeTask.inc_runtime_ns 1).get_runtime_ns = 0 ∧
    (maxRuntimeTask.inc_runtime_ns 1).get_runtime_ns ≠
      maxRuntimeTask.get_runtime_ns + 1 ∧
    (maxRuntimeTask.inc_runtime_ns 1).get_runtime_ns <
      maxRuntimeTask.get_runtime_ns := by
  refine ⟨?_, ?_, ?_⟩ <;> decide

/-- C8 (amended): `inc_runtime_ns(delta)` sets `_runtime` to the old value
plus delta modulo 2^64 — equal to the true sum, hence non-decreasing,
whenever that sum stays below 2^64 — and no other modelled task operation
changes `_runtime`. -/
theorem runtime_accounting_spec (t : PipelineTask) (delta : Nat) :
    (t.inc_runtime_ns delta).get_runtime_ns =
      (t.get_runtime_ns + delta) % UINT64_MOD ∧
    (t.get_runtime_ns + delta < UINT64_MOD →
      (t.inc_runtime_ns delta).get_runtime_ns = t.get_runtime_ns + delta ∧
      t.get_runtime_ns ≤ (t.inc_runtime_ns delta).get_runtime_ns) ∧
    (t.put_in_runnable_queue).get_runtime_ns = t.get_runtime_ns ∧
    (t.pop_out_runnable_queue).get_runtime_ns = t.get_runtime_ns ∧
    (∀ id : Int, (t.set_previous_core_id id).get_runtime_ns = t.get_runtime_ns) ∧
    (∀ l : Int, (t.update_queue_level l).get_runtime_ns = t.get_runtime_ns) ∧
    (∀ c : Int, (t.set_core_id c).get_runtime_ns = t.get_runtime_ns) ∧
    ((t.try_close).2).get_runtime_ns = t.get_runtime_ns := by
  refine ⟨rfl, ?_, rfl, rfl, ?_, fun _ => rfl, fun _ => rfl, ?_⟩
  · intro h
    have he : (t.inc_runtime_ns delta).get_runtime_ns = t.get_runtime_ns + delta := by
      show (t.runtime + delta) % UINT64_MOD = t.runtime + delta
      exact Nat.mod_eq_of_lt h
    exact ⟨he, by simp [he]⟩
  · intro id
    simp only [PipelineTask.set_previous_core_id]
    split
    · rfl
    · split <;> rfl
  · simp only [PipelineTask.try_close]
    split <;> rfl

/-- Witness for C8 (amended) at the fresh sample task and delta 7. -/
theorem runtime_accounting_spec_witness :
    (sampleTask.inc_runtime_ns 7).get_runtime_ns = sampleTask.get_runtime_ns + 7 ∧
    sampleTask.get_runtime_ns ≤ (sampleTask.inc_runtime_ns 7).get_runtime_ns :=
  (runtime_accounting_spec sampleTask 7).2.1 (by decide)

/-- C9: `MultiCastDataStreamerSourceOperator::prepare`, `::open` and
`::sink` return OK unconditionally, for every state, block and source
state. -/
theorem multicast_source_prepare_open_sink_ok
    (op : MultiCastDataStreamerSourceOperator) (state : RuntimeState)
    (block : Block) (source_state : SourceState) :
    op.prepare state = Status.OK ∧
    op.open_operator state = Status.OK ∧
    op.sink state block source_state = Status.OK :=
  ⟨rfl, rfl, rfl⟩

/-- C10: `get_previous_core_id` returns the task's own recorded core id when
that id is not -1, and the owning pipeline's last-known core hint
otherwise. -/
theorem get_previous_core_id_spec (t : PipelineTask) :
    (t.previous_schedule_id ≠ -1 →
      t.get_previous_core_id = t.previous_schedule_id) ∧
    (t.previous_schedule_id = -1 →
      t.get_previous_core_id = t.pipeline.previous_schedule_id) := by
  constructor
  · intro h
    simp [PipelineTask.get_previous_core_id, h]
  · intro h
    simp [PipelineTask.get_previous_core_id, h]

/-- Witness for C10 at a scheduled task (recorded id 5) and a fresh task
(falls back to the pipeline hint). -/
theorem get_previous_core_id_spec_witness :
    scheduledTask.get_previous_core_id = scheduledTask.previous_schedule_id ∧
    sampleTask.get_previous_core_id = sampleTask.pipeline.previous_schedule_id :=
  ⟨(get_previous_core_id_spec scheduledTask).1 (by decide),
   (get_previous_core_id_spec sampleTask).2 (by decide)⟩

end doris.pipeline
